import Mathlib

/-!
# Verification of the weather-app analysis pipeline

Shallow embedding of the agricultural analysis pipeline of the
python-weather-app repository:

* `src/server.py` — metric derivation (`calculate_growing_degree_days`,
  `assess_frost_risk`, `get_irrigation_need`), the forecast reduction loop
  and the alert composition of the `agricultural_dashboard` route;
* `src/ai_client.py` — the recommendation generator
  (`generate_ai_analysis`, `_get_mock_recommendations`, `_normalize`,
  `_get_openai_api_key`).

Numeric weather readings are modelled as exact rationals (`Rat`); JSON
numbers likewise.  External I/O (the text-generation call plus the
`json.loads` of its fence-stripped output) is modelled as an explicit
parameter: `Except Unit (Option JValue)` where `.error ()` is a raised
exception anywhere in the call, `.ok none` is a `json.loads` failure on the
returned text, and `.ok (some v)` is a successfully parsed JSON value.
The process environment is an explicit `Env` record.

The confidence→priority mapping and climate classifier belong to the
client-delegating dashboard route of the repository, which is not among the
source files; those two definitions are modelled from the spec and marked
as such.
-/

namespace WeatherApp

/-! ## Python string primitives

`pyLower` models `str.lower` (ASCII case folding, the only case used by the
pipeline); `strIn pat s` models the Python expression `pat in s`
(substring containment); `strTake` models the slice `s[:n]`.
-/

def pyLower (s : String) : String := String.mk (s.data.map Char.toLower)

def listIsPrefix : List Char → List Char → Bool
  | [], _ => true
  | _ :: _, [] => false
  | a :: as, b :: bs => a == b && listIsPrefix as bs

def listIsInfix (pat : List Char) : List Char → Bool
  | [] => pat.isEmpty
  | c :: rest => listIsPrefix pat (c :: rest) || listIsInfix pat rest

def strIn (pat s : String) : Bool := listIsInfix pat.data s.data

def strTake (s : String) (n : Nat) : String := String.mk (s.data.take n)

/-! ## Metric derivation (`src/server.py`, lines 27–49) -/

/-- `calculate_growing_degree_days(temp_max, temp_min, base_temp=50)`:
`avg_temp = (temp_max + temp_min) / 2; gdd = max(0, avg_temp - base_temp)`. -/
def calculate_growing_degree_days (temp_max temp_min : Rat) (base_temp : Rat := 50) : Rat :=
  let avg_temp := (temp_max + temp_min) / 2
  max 0 (avg_temp - base_temp)

/-- `assess_frost_risk(temp_min, humidity)` from `src/server.py`. -/
def assess_frost_risk (temp_min humidity : Rat) : String :=
  if temp_min ≤ 32 ∧ humidity > 80 then "High Risk"
  else if temp_min ≤ 36 then "Moderate Risk"
  else "Low Risk"

/-- `get_irrigation_need(humidity, precipitation, temp)` from `src/server.py`. -/
def get_irrigation_need (humidity precipitation temp : Rat) : String :=
  if precipitation > 0.5 then "Low"
  else if humidity < 40 ∧ temp > 80 then "High"
  else if humidity < 60 then "Medium"
  else "Low"

/-! ## Forecast reduction (`src/server.py`, lines 199–238)

One 3-hourly forecast point of the provider payload.  `rain3h` models
`day_data.get('rain', {}).get('3h', 0)`: `none` when the nested key is
absent.  The two `datetime.strftime` formats (`'%a, %b %d'` and `'%m/%d'`)
are local-time library calls and are passed in as abstract formatting
functions on the Unix timestamp. -/
structure ForecastPoint where
  dt : Int
  dt_txt : String
  temp_max : Rat
  temp_min : Rat
  humidity : Rat
  rain3h : Option Rat
  wind_speed : Rat
  weather_desc : String

/-- One entry of `daily_forecasts` as built by the dashboard loop. -/
structure DailySummary where
  date : String
  date_formatted : String
  temp_max : Rat
  temp_min : Rat
  humidity : Rat
  precipitation : Rat
  wind_speed : Rat
  gdd : Rat
  frost_risk : String
  weather : String
  weather_icon : String
deriving DecidableEq

/-- Python `round(q, 1)` on exact values: round half to even at one decimal. -/
def roundHalfEven (q : Rat) : Int :=
  let f : Int := q.floor
  let r : Rat := q - f
  if r < 1/2 then f else if 1/2 < r then f + 1 else if f % 2 = 0 then f else f + 1

def pyRound1 (q : Rat) : Rat := (roundHalfEven (10 * q) : Rat) / 10

/-- The index sequence of the dashboard loop:
`range(0, min(len(forecast['list']), 56), 8)`. -/
def dashboardIndices (n : Nat) : List Nat :=
  (List.range (min n 56)).filter (fun i => i % 8 == 0)

/-- The `daily_forecasts.append({...})` record of the loop body. -/
def mkDailySummary (fmtDate : Int → String) (p : ForecastPoint) : DailySummary :=
  { date := strTake p.dt_txt 10
    date_formatted := fmtDate p.dt
    temp_max := p.temp_max
    temp_min := p.temp_min
    humidity := p.humidity
    precipitation := p.rain3h.getD 0
    wind_speed := p.wind_speed
    gdd := calculate_growing_degree_days p.temp_max p.temp_min
    frost_risk := assess_frost_risk p.temp_min p.humidity
    weather := p.weather_desc
    weather_icon := "cloud-sun" }

/-- The five parallel output sequences of the dashboard forecast loop. -/
structure DashboardSeries where
  daily_forecasts : List DailySummary
  temp_data : List Rat
  humidity_data : List Rat
  gdd_data : List Rat
  forecast_labels : List String

/-- The forecast loop of `agricultural_dashboard`: for each index in
`range(0, min(len(points), 56), 8)` append to the five parallel lists. -/
def reduceForecast (fmtDate fmtLabel : Int → String) (points : List ForecastPoint) :
    DashboardSeries :=
  let sel := (dashboardIndices points.length).filterMap (fun i => points[i]?)
  { daily_forecasts := sel.map (mkDailySummary fmtDate)
    temp_data := sel.map (fun p => pyRound1 ((p.temp_max + p.temp_min) / 2))
    humidity_data := sel.map (fun p => p.humidity)
    gdd_data := sel.map (fun p => pyRound1 (calculate_growing_degree_days p.temp_max p.temp_min))
    forecast_labels := sel.map (fun p => fmtLabel p.dt) }

/-! ## Alert composition (`src/server.py`, lines 269–282) -/

structure Alert where
  type : String
  icon : String
  message : String
deriving DecidableEq

/-- The frost alert appended when `frost_risk == "High Risk"`. -/
def frostAlert : Alert :=
  ⟨"danger", "exclamation-triangle", "Frost Warning: Protect sensitive crops tonight!"⟩

/-- The UV alert appended when `uv_index > 7`; the f-string embeds the value. -/
def uvAlert (uv_index : Rat) : Alert :=
  ⟨"warning", "sun",
    "High UV Index (" ++ toString uv_index ++ "): Limit field work during midday"⟩

/-- The alert-building block of `agricultural_dashboard`. -/
def compose_alerts (frost_risk : String) (uv_index : Rat) : List Alert :=
  (if frost_risk = "High Risk" then [frostAlert] else []) ++
  (if uv_index > 7 then [uvAlert uv_index] else [])

/-! ## Recommendation generator (`src/ai_client.py`) -/

/-- A parsed JSON value as produced by `json.loads`. -/
inductive JValue where
  | null
  | bool (b : Bool)
  | num (q : Rat)
  | str (s : String)
  | arr (xs : List JValue)
  | obj (fields : List (String × JValue))

/-- One `{ "recommendation": ..., "confidence": ... }` entry of the result. -/
structure Recommendation where
  recommendation : String
  confidence : Int
deriving DecidableEq

/-- The `ai_analysis` mapping: an insertion-ordered dict of string keys to
recommendation entries. -/
abbrev AnalysisResult := List (String × Recommendation)

/-- The process environment and import state read by `ai_client.py`:
the environment variables `USE_EXTERNAL_AI`, `OPENAI_API_KEY` and
`OPENAI_KEY` (`none` = unset), and whether `import openai` succeeded. -/
structure Env where
  use_external_ai : Option String
  openai_api_key : Option String
  openai_key : Option String
  openai_available : Bool

/-- Python `a or b` on two `os.getenv` results: the first operand is taken
unless it is `None` or empty (falsy). -/
def pyOrStr (a b : Option String) : Option String :=
  match a with
  | some s => if s = "" then b else some s
  | none => b

/-- Python truthiness test `not api_key` on an optional string. -/
def pyFalsyStr : Option String → Bool
  | none => true
  | some s => s == ""

/-- `_get_openai_api_key()` from `src/ai_client.py`. -/
def _get_openai_api_key (env : Env) : Option String :=
  let use_external_api := pyLower (env.use_external_ai.getD "false") == "true"
  if use_external_api then pyOrStr env.openai_api_key env.openai_key else none

/-- `_get_mock_recommendations(climate_label, city)` from `src/ai_client.py`:
the deterministic fallback table, keyed by substring tests on the lowercased
climate label.  The `city` argument is accepted but unused, as in the source. -/
def _get_mock_recommendations (climate_label : String) (city : String := "") : AnalysisResult :=
  let climate := pyLower climate_label
  if strIn "rain" climate || strIn "drizzle" climate || strIn "thunderstorm" climate then
    [("irrigation_analysis",
      ⟨"Delay irrigation for 3-5 days. Check soil moisture at 4-6 inch depth before resuming watering schedule.", 92⟩),
     ("pest_analysis",
      ⟨"Apply fungicide preventively. Inspect for slug damage and use baits in problem areas. Increase scouting frequency during warm, humid periods.", 88⟩),
     ("field_analysis",
      ⟨"Avoid field operations until soil dries. Wait 24-48 hours after rain stops before using heavy machinery to prevent soil compaction.", 95⟩),
     ("crop_analysis",
      ⟨"Ensure proper drainage in low areas. Delay nitrogen application until drier conditions. Monitor for signs of waterlogging stress.", 90⟩)]
  else if strIn "winter" climate || strIn "snow" climate || strIn "cold" climate then
    [("irrigation_analysis",
      ⟨"Drain and winterize irrigation systems. Protect pipes from freezing. Only water if temperatures consistently above 40°F and soil is dry.", 95⟩),
     ("pest_analysis",
      ⟨"Inspect stored grain weekly. Remove crop residue to eliminate pest habitat. Apply dormant oil sprays on fruit trees if temperatures above 40°F.", 88⟩),
     ("field_analysis",
      ⟨"Suspend all field operations when ground is frozen or snow-covered. Cover sensitive equipment. Service machinery indoors during downtime.", 95⟩),
     ("crop_analysis",
      ⟨"Cover sensitive crops with row covers or mulch before freeze. Protect young trees with trunk wraps. Delay pruning until late winter.", 92⟩)]
  else if strIn "sunny" climate || strIn "clear" climate then
    [("irrigation_analysis",
      ⟨"Increase watering frequency. Irrigate early morning (4-8 AM) or evening to minimize evaporation. Apply 1-1.5 inches per week for most crops.", 92⟩),
     ("pest_analysis",
      ⟨"Scout for spider mites and aphids twice weekly. Apply insecticidal soap early if pest threshold reached. Maintain beneficial insect habitat with cover crops.", 88⟩),
     ("field_analysis",
      ⟨"Complete spraying, harvesting and planting operations now. Schedule work before 10 AM or after 4 PM. Provide shade and water breaks for workers.", 95⟩),
     ("crop_analysis",
      ⟨"Apply shade cloth for heat-sensitive crops. Increase mulch depth to 3-4 inches. Monitor for wilting and apply supplemental water as needed.", 90⟩)]
  else
    [("irrigation_analysis",
      ⟨"Water when top 2 inches of soil is dry. Apply 0.75-1 inch per week. Install moisture sensors for precise scheduling.", 85⟩),
     ("pest_analysis",
      ⟨"Scout fields twice weekly. Set up yellow sticky traps to monitor pest populations. Apply treatments only when thresholds are exceeded.", 82⟩),
     ("field_analysis",
      ⟨"Proceed with planned field operations. Check 3-day forecast before critical activities. Avoid spraying if rain expected within 24 hours.", 88⟩),
     ("crop_analysis",
      ⟨"Apply balanced fertilizer based on soil test results. Monitor crop growth stage weekly. Adjust nitrogen rates according to leaf color and vigor.", 85⟩)]

/-- Truncation toward zero, the behaviour of Python `int()` on a number. -/
def ratTrunc (q : Rat) : Int := if 0 ≤ q then q.floor else q.ceil

/-- Decimal digits of a Python int literal body; `none` when empty or
containing a non-digit. -/
def digitsVal (cs : List Char) : Option Nat :=
  if cs.isEmpty then none
  else cs.foldl
    (fun acc c =>
      match acc with
      | none => none
      | some a => if c.isDigit then some (10 * a + (c.toNat - 48)) else none)
    (some 0)

/-- Python `int()` applied to a string: strip whitespace, optional sign,
decimal digits; `none` when the conversion raises `ValueError`. -/
def pyStrToInt (s : String) : Option Int :=
  match s.trim.data with
  | '-' :: rest => (digitsVal rest).map (fun n => -(n : Int))
  | '+' :: rest => (digitsVal rest).map (fun n => (n : Int))
  | cs => (digitsVal cs).map (fun n => (n : Int))

/-- Python `int()` applied to a JSON value; `none` when it raises. -/
def pyInt : JValue → Option Int
  | .bool b => some (if b then 1 else 0)
  | .num q => some (ratTrunc q)
  | .str s => pyStrToInt s
  | _ => none

/-- Dict lookup on an insertion-ordered field list. -/
def alookup (fields : List (String × JValue)) (k : String) : Option JValue :=
  List.lookup k fields

/-- `_normalize(obj)` from `generate_ai_analysis`:
`rec = obj.get('recommendation', '').strip()` and
`conf = int(obj.get('confidence', 50)) if obj.get('confidence') is not None else 50`.
`none` models a raised exception (`.get` on a non-dict, `.strip` on a
non-string, `int()` on an unconvertible value). -/
def _normalize (obj : JValue) : Option Recommendation :=
  match obj with
  | .obj fields =>
    let recOpt : Option String :=
      match alookup fields "recommendation" with
      | none => some ""
      | some (.str s) => some s.trim
      | some _ => none
    let confOpt : Option Int :=
      match alookup fields "confidence" with
      | none => some 50
      | some .null => some 50
      | some v => pyInt v
    match recOpt, confOpt with
    | some r, some c => some ⟨r, c⟩
    | _, _ => none
  | _ => none

/-- `data.get(key, {})`: `none` models the `AttributeError` raised when the
parsed JSON toplevel is not an object. -/
def jgetD (data : JValue) (k : String) (d : JValue) : Option JValue :=
  match data with
  | .obj fields => some ((alookup fields k).getD d)
  | _ => none

/-- The `ai_out` construction of `generate_ai_analysis`: normalize the four
`data.get(key, {})` values; `none` models an exception raised while doing so
(which sends the whole invocation to the fallback). -/
def normalizeFour (data : JValue) : Option AnalysisResult := do
  let i ← (jgetD data "irrigation_analysis" (.obj [])).bind _normalize
  let p ← (jgetD data "pest_analysis" (.obj [])).bind _normalize
  let f ← (jgetD data "field_analysis" (.obj [])).bind _normalize
  let c ← (jgetD data "crop_analysis" (.obj [])).bind _normalize
  pure [("irrigation_analysis", i), ("pest_analysis", p),
        ("field_analysis", f), ("crop_analysis", c)]

/-- `generate_ai_analysis(climate_label, city)` from `src/ai_client.py`.

`callOutcome` is the outcome of the external interaction performed inside
the `try` block: `.error ()` = the client call raised, `.ok none` =
`json.loads` failed on the (fence-stripped) response text, `.ok (some v)` =
the response parsed to `v`.  Both failure shapes, like a failure inside the
normalization itself, land in the `except` handler, which returns the
fallback table; the function never propagates an exception. -/
def generate_ai_analysis (env : Env) (callOutcome : Except Unit (Option JValue))
    (climate_label : String) (city : String := "") : AnalysisResult :=
  let fallback := _get_mock_recommendations climate_label city
  let api_key := _get_openai_api_key env
  if pyFalsyStr api_key || !env.openai_available then fallback
  else
    match callOutcome with
    | .error _ => fallback
    | .ok none => fallback
    | .ok (some data) =>
      match normalizeFour data with
      | some out => out
      | none => fallback

/-! ## Spec-modelled parts of the client-delegating dashboard route

The repository's client-delegating dashboard route (the caller of
`generate_ai_analysis`) is not among the source files; only its collaborator
`src/ai_client.py` is.  The two pieces of its logic that the claims need —
the confidence→priority mapping and the climate classifier — are modelled
from the spec below and marked as such.
-/

/-- Priority enum derived from an integer confidence. -/
inductive Priority where
  | low
  | medium
  | high
deriving DecidableEq

/-- Modelled from the spec: the confidence→Priority mapping applied by the
client-delegating dashboard caller (absent from the source files):
integer confidence `c` maps to High if `c ≥ 80`, Medium if `c ≥ 60`, else
Low (spec §3 Recommendation, §4.4). -/
def map_confidence_to_priority (c : Int) : Priority :=
  if 80 ≤ c then .high else if 60 ≤ c then .medium else .low

/-- Modelled from the spec: the caller applies the confidence→Priority view
to each of the four analysis entries before presentation (spec §4.4). -/
def apply_priorities (r : AnalysisResult) : List (String × Recommendation × Priority) :=
  r.map (fun kv => (kv.1, kv.2, map_confidence_to_priority kv.2.confidence))

/-- Modelled from the spec: the climate classifier of the client-delegating
dashboard route (absent from the source files), spec §4.3: rules evaluated
in order, first match wins; rule 1 rain/drizzle/thunderstorm → rain;
rule 2 snow or temperature ≤ 36°F → winter; rule 3 clear/sun → sunny;
rule 4 lowercased condition, or moderate when the condition is empty. -/
def classify_climate (condition : String) (temp : Rat) : String :=
  let cond := pyLower condition
  if strIn "rain" cond ∨ strIn "drizzle" cond ∨ strIn "thunderstorm" cond then "rain"
  else if strIn "snow" cond ∨ temp ≤ 36 then "winter"
  else if strIn "clear" cond ∨ strIn "sun" cond then "sunny"
  else if condition = "" then "moderate"
  else cond

/-- The primary-path gate of `generate_ai_analysis` as a single flag:
`not api_key or openai is None`. -/
def externalDisabled (env : Env) : Bool :=
  pyFalsyStr (_get_openai_api_key env) || !env.openai_available

/-- A concretely configured environment (external calls enabled, key set,
`openai` importable). -/
def envConfigured : Env := ⟨some "true", some "sk-test", none, true⟩

/-- A concretely unconfigured environment (`USE_EXTERNAL_AI` unset). -/
def envUnconfigured : Env := ⟨none, none, none, true⟩

/-- A sample 3-hourly forecast point. -/
def samplePoint : ForecastPoint :=
  ⟨1704067200, "2024-01-01 00:00:00", 60, 40, 50, none, 5, "clouds"⟩

/-! ## Helper lemmas -/

theorem generate_fallback (env : Env) (outcome : Except Unit (Option JValue))
    (l c : String) (h : externalDisabled env = true) :
    generate_ai_analysis env outcome l c = _get_mock_recommendations l c := by
  have h' : (pyFalsyStr (_get_openai_api_key env) || !env.openai_available) = true := h
  simp only [generate_ai_analysis, h', if_true]

theorem generate_primary (env : Env) (outcome : Except Unit (Option JValue))
    (l c : String) (h : externalDisabled env = false) :
    generate_ai_analysis env outcome l c =
      match outcome with
      | .ok (some data) => (normalizeFour data).getD (_get_mock_recommendations l c)
      | _ => _get_mock_recommendations l c := by
  have h' : (pyFalsyStr (_get_openai_api_key env) || !env.openai_available) = false := h
  simp only [generate_ai_analysis, h', Bool.false_eq_true, if_false]
  cases outcome with
  | error e => rfl
  | ok od =>
    cases od with
    | none => rfl
    | some data => cases hnf : normalizeFour data <;> simp [hnf]

theorem mock_keys (l c : String) :
    (_get_mock_recommendations l c).map Prod.fst =
      ["irrigation_analysis", "pest_analysis", "field_analysis", "crop_analysis"] := by
  simp only [_get_mock_recommendations]
  split_ifs <;> rfl

theorem normalizeFour_some {data : JValue} {out : AnalysisResult}
    (h : normalizeFour data = some out) :
    ∃ i p f c,
      (jgetD data "irrigation_analysis" (.obj [])).bind _normalize = some i ∧
      (jgetD data "pest_analysis" (.obj [])).bind _normalize = some p ∧
      (jgetD data "field_analysis" (.obj [])).bind _normalize = some f ∧
      (jgetD data "crop_analysis" (.obj [])).bind _normalize = some c ∧
      out = [("irrigation_analysis", i), ("pest_analysis", p),
             ("field_analysis", f), ("crop_analysis", c)] := by
  simp only [normalizeFour, Option.bind_eq_bind, Option.bind_eq_some, Option.pure_def,
    Option.some.injEq] at h
  obtain ⟨i, hi, p, hp, f, hf, c, hc, hout⟩ := h
  exact ⟨i, p, f, c, Option.bind_eq_some.mpr hi, Option.bind_eq_some.mpr hp,
    Option.bind_eq_some.mpr hf, Option.bind_eq_some.mpr hc, hout.symm⟩

/-! ## Claim theorems -/

/-- C7: for all numeric `tempMin` and `humidity`, frost risk is High Risk iff
`tempMin ≤ 32` and `humidity > 80`; otherwise Moderate Risk iff `tempMin ≤ 36`,
and Low Risk in all remaining cases (the high-risk check being evaluated
first); in particular `frostRisk(31, 85) = High Risk`,
`frostRisk(35, 50) = Moderate Risk`, `frostRisk(40, 50) = Low Risk`. -/
theorem frost_risk_thresholds (t h : Rat) :
    (assess_frost_risk t h = "High Risk" ↔ (t ≤ 32 ∧ 80 < h)) ∧
    (assess_frost_risk t h = "Moderate Risk" ↔ (¬(t ≤ 32 ∧ 80 < h) ∧ t ≤ 36)) ∧
    (assess_frost_risk t h = "Low Risk" ↔ (¬(t ≤ 32 ∧ 80 < h) ∧ ¬t ≤ 36)) ∧
    assess_frost_risk 31 85 = "High Risk" ∧
    assess_frost_risk 35 50 = "Moderate Risk" ∧
    assess_frost_risk 40 50 = "Low Risk" := by
  refine ⟨?_, ?_, ?_, by decide, by decide, by decide⟩ <;>
    unfold assess_frost_risk <;>
    split_ifs with h1 h2 <;> simp_all

/-- C8: `growingDegreeDays(tempMax, tempMin, baseTemp)` equals
`max(0, (tempMax + tempMin)/2 - baseTemp)`, is never negative, and (at the
default base 50) is monotonically non-decreasing in the average of the two
temperatures. -/
theorem gdd_formula_nonneg_monotone (a b c d base : Rat) :
    calculate_growing_degree_days a b base = max 0 ((a + b) / 2 - base) ∧
    0 ≤ calculate_growing_degree_days a b base ∧
    ((a + b) / 2 ≤ (c + d) / 2 →
      calculate_growing_degree_days a b ≤ calculate_growing_degree_days c d) := by
  refine ⟨rfl, le_max_left 0 _, fun h => ?_⟩
  exact max_le_max le_rfl (sub_le_sub_right h 50)

/-- Witness for C8 at concrete temperatures: average 60 ≤ average 80, so the
GDD at (60, 60) is at most the GDD at (80, 80). -/
theorem gdd_formula_nonneg_monotone_witness :
    calculate_growing_degree_days 60 60 ≤ calculate_growing_degree_days 80 80 :=
  (gdd_formula_nonneg_monotone 60 60 80 80 50).2.2 (by norm_num)

/-- C9: the alert composer emits the danger frost alert exactly when frost
risk is "High Risk" and the warning UV alert (embedding the UV value) exactly
when `uv > 7`, frost alert first; when neither condition holds the sequence
is empty. -/
theorem alert_composer_cases (fr : String) (uv : Rat) :
    (fr = "High Risk" ∧ 7 < uv → compose_alerts fr uv = [frostAlert, uvAlert uv]) ∧
    (fr = "High Risk" ∧ ¬7 < uv → compose_alerts fr uv = [frostAlert]) ∧
    (fr ≠ "High Risk" ∧ 7 < uv → compose_alerts fr uv = [uvAlert uv]) ∧
    (fr ≠ "High Risk" ∧ ¬7 < uv → compose_alerts fr uv = []) := by
  refine ⟨fun ⟨h1, h2⟩ => ?_, fun ⟨h1, h2⟩ => ?_, fun ⟨h1, h2⟩ => ?_, fun ⟨h1, h2⟩ => ?_⟩ <;>
    simp [compose_alerts, h1, h2]

/-- Witness for C9: (High Risk, uv = 9) yields exactly
[danger frost, warning UV(9)]; (Low Risk, uv = 3) yields no alerts. -/
theorem alert_composer_cases_witness :
    compose_alerts "High Risk" 9 = [frostAlert, uvAlert 9] ∧
    compose_alerts "Low Risk" 3 = [] :=
  ⟨(alert_composer_cases "High Risk" 9).1 ⟨rfl, by norm_num⟩,
   (alert_composer_cases "Low Risk" 3).2.2.2 ⟨by decide, by norm_num⟩⟩

/-- C3: the caller-side view maps integer confidence `c` to High iff
`c ≥ 80`, Medium iff `60 ≤ c < 80`, Low iff `c < 60`, and the view is
applied entry-wise (length-preserving and index-aligned) to the analysis
entries before presentation.  (The mapping is modelled from the spec: it
belongs to the client-delegating dashboard route, absent from src/.) -/
theorem confidence_priority_mapping (c : Int) (r : AnalysisResult) (j : Nat) :
    (map_confidence_to_priority c = .high ↔ 80 ≤ c) ∧
    (map_confidence_to_priority c = .medium ↔ 60 ≤ c ∧ c < 80) ∧
    (map_confidence_to_priority c = .low ↔ c < 60) ∧
    (apply_priorities r).length = r.length ∧
    (apply_priorities r)[j]? =
      (r[j]?).map (fun kv => (kv.1, kv.2, map_confidence_to_priority kv.2.confidence)) := by
  refine ⟨?_, ?_, ?_, List.length_map r _, by simp [apply_priorities]⟩ <;>
    unfold map_confidence_to_priority <;>
    split_ifs with h1 h2 <;> simp <;> omega

/-- C4: the climate classifier applies its rules in order with first match
winning: rain/drizzle/thunderstorm → "rain"; snow or temperature ≤ 36°F →
"winter"; clear/sun → "sunny"; otherwise the lowercased condition, or
"moderate" when the condition string is empty.  (Modelled from the spec:
the classifier belongs to the client-delegating dashboard route, absent
from src/.) -/
theorem climate_classifier_rules (condition : String) (temp : Rat) :
    (strIn "rain" (pyLower condition) ∨ strIn "drizzle" (pyLower condition) ∨
        strIn "thunderstorm" (pyLower condition) →
      classify_climate condition temp = "rain") ∧
    (¬(strIn "rain" (pyLower condition) ∨ strIn "drizzle" (pyLower condition) ∨
        strIn "thunderstorm" (pyLower condition)) →
      (strIn "snow" (pyLower condition) ∨ temp ≤ 36) →
      classify_climate condition temp = "winter") ∧
    (¬(strIn "rain" (pyLower condition) ∨ strIn "drizzle" (pyLower condition) ∨
        strIn "thunderstorm" (pyLower condition)) →
      ¬(strIn "snow" (pyLower condition) ∨ temp ≤ 36) →
      (strIn "clear" (pyLower condition) ∨ strIn "sun" (pyLower condition)) →
      classify_climate condition temp = "sunny") ∧
    (¬(strIn "rain" (pyLower condition) ∨ strIn "drizzle" (pyLower condition) ∨
        strIn "thunderstorm" (pyLower condition)) →
      ¬(strIn "snow" (pyLower condition) ∨ temp ≤ 36) →
      ¬(strIn "clear" (pyLower condition) ∨ strIn "sun" (pyLower condition)) →
      classify_climate condition temp =
        if condition = "" then "moderate" else pyLower condition) := by
  refine ⟨fun h1 => ?_, fun h1 h2 => ?_, fun h1 h2 h3 => ?_, fun h1 h2 h3 => ?_⟩ <;>
    simp only [classify_climate] <;>
    first
    | rw [if_pos h1]
    | rw [if_neg h1, if_pos h2]
    | rw [if_neg h1, if_neg h2, if_pos h3]
    | rw [if_neg h1, if_neg h2, if_neg h3]

/-- Witness for C4 on the spec's concrete examples: "light rain" → rain,
"Snow" at any temperature → winter, "clear" at 70°F → sunny, "" at 50°F →
moderate, and passthrough "Clouds" at 50°F → "clouds". -/
theorem climate_classifier_rules_witness :
    classify_climate "light rain" 70 = "rain" ∧
    classify_climate "Snow" 90 = "winter" ∧
    classify_climate "clear" 70 = "sunny" ∧
    classify_climate "" 50 = "moderate" ∧
    classify_climate "Clouds" 50 = "clouds" := by
  refine ⟨(climate_classifier_rules "light rain" 70).1 (by decide),
    (climate_classifier_rules "Snow" 90).2.1 (by decide) (by decide),
    (climate_classifier_rules "clear" 70).2.2.1 (by decide) (by decide) (by decide),
    ?_, ?_⟩
  · simpa using (climate_classifier_rules "" 50).2.2.2 (by decide) (by decide) (by decide)
  · simpa using (climate_classifier_rules "Clouds" 50).2.2.2 (by decide) (by decide) (by decide)

theorem dashboardIndices_lt (n : Nat) : ∀ i ∈ dashboardIndices n, i < n := by
  intro i hi
  unfold dashboardIndices at hi
  have h1 := List.mem_range.mp (List.mem_filter.mp hi).1
  omega

theorem filterMap_getElem_of_lt {α : Type} (points : List α) (l : List Nat)
    (h : ∀ i ∈ l, i < points.length) (j : Nat) :
    (l.filterMap (fun i => points[i]?))[j]? = (l[j]?).bind (fun i => points[i]?) := by
  induction l generalizing j with
  | nil => simp
  | cons a t ih =>
    have ha := List.getElem?_eq_getElem (h a (List.mem_cons_self a t))
    cases j with
    | zero => simp [List.filterMap_cons, ha]
    | succ j =>
      simp only [List.filterMap_cons, ha, List.getElem?_cons_succ]
      exact ih (fun i hi => h i (List.mem_cons_of_mem a hi)) j

theorem filterMap_length_of_lt {α : Type} (points : List α) (l : List Nat)
    (h : ∀ i ∈ l, i < points.length) :
    (l.filterMap (fun i => points[i]?)).length = l.length := by
  induction l with
  | nil => simp
  | cons a t ih =>
    have ha := List.getElem?_eq_getElem (h a (List.mem_cons_self a t))
    simp only [List.filterMap_cons, ha, List.length_cons]
    rw [ih (fun i hi => h i (List.mem_cons_of_mem a hi))]

theorem dashboardIndices_length_le (n : Nat) : (dashboardIndices n).length ≤ 7 := by
  have hsub : (List.range (min n 56)).Sublist (List.range 56) :=
    List.range_sublist.mpr (Nat.min_le_right n 56)
  have hle := (hsub.filter (fun i => i % 8 == 0)).length_le
  have h7 : ((List.range 56).filter (fun i => i % 8 == 0)).length = 7 := by decide
  unfold dashboardIndices
  omega

/-- C6: the forecast reducer selects exactly the indices `0, 8, 16, …`
below `min(length, 56)`, yields at most 7 daily summaries, keeps the three
chart sequences the same length as (and index-aligned with) the summary
sequence, and on a 40-point input selects exactly the indices
`[0, 8, 16, 24, 32]`, producing exactly 5 summaries. -/
theorem forecast_reducer_spec (fmtDate fmtLabel : Int → String)
    (points : List ForecastPoint) :
    (∀ i, i ∈ dashboardIndices points.length ↔
      (i % 8 = 0 ∧ i < min points.length 56)) ∧
    (reduceForecast fmtDate fmtLabel points).daily_forecasts.length =
      (dashboardIndices points.length).length ∧
    (reduceForecast fmtDate fmtLabel points).daily_forecasts.length ≤ 7 ∧
    (reduceForecast fmtDate fmtLabel points).temp_data.length =
      (reduceForecast fmtDate fmtLabel points).daily_forecasts.length ∧
    (reduceForecast fmtDate fmtLabel points).humidity_data.length =
      (reduceForecast fmtDate fmtLabel points).daily_forecasts.length ∧
    (reduceForecast fmtDate fmtLabel points).gdd_data.length =
      (reduceForecast fmtDate fmtLabel points).daily_forecasts.length ∧
    (reduceForecast fmtDate fmtLabel points).temp_data =
      (reduceForecast fmtDate fmtLabel points).daily_forecasts.map
        (fun s => pyRound1 ((s.temp_max + s.temp_min) / 2)) ∧
    (reduceForecast fmtDate fmtLabel points).humidity_data =
      (reduceForecast fmtDate fmtLabel points).daily_forecasts.map
        (fun s => s.humidity) ∧
    (reduceForecast fmtDate fmtLabel points).gdd_data =
      (reduceForecast fmtDate fmtLabel points).daily_forecasts.map
        (fun s => pyRound1 s.gdd) ∧
    (∀ j : Nat, (reduceForecast fmtDate fmtLabel points).daily_forecasts[j]? =
      (((dashboardIndices points.length)[j]?).bind (fun i : Nat => points[i]?)).map
        (mkDailySummary fmtDate)) ∧
    (points.length = 40 →
      dashboardIndices points.length = [0, 8, 16, 24, 32] ∧
      (reduceForecast fmtDate fmtLabel points).daily_forecasts.length = 5) := by
  have hlt := dashboardIndices_lt points.length
  have hsel : ((dashboardIndices points.length).filterMap
      (fun i => points[i]?)).length = (dashboardIndices points.length).length :=
    filterMap_length_of_lt points _ hlt
  refine ⟨?_, ?_, ?_, ?_, ?_, ?_, ?_, ?_, ?_, ?_, ?_⟩
  · intro i
    unfold dashboardIndices
    simp only [List.mem_filter, List.mem_range, beq_iff_eq]
    tauto
  · simpa [reduceForecast] using hsel
  · have := dashboardIndices_length_le points.length
    simp only [reduceForecast, List.length_map]
    omega
  · simp [reduceForecast]
  · simp [reduceForecast]
  · simp [reduceForecast]
  · simp only [reduceForecast, List.map_map]
    rfl
  · simp only [reduceForecast, List.map_map]
    rfl
  · simp only [reduceForecast, List.map_map]
    rfl
  · intro j
    simp only [reduceForecast, List.getElem?_map,
      filterMap_getElem_of_lt points _ hlt j]
  · intro h40
    rw [h40] at hsel ⊢
    have hidx : dashboardIndices 40 = [0, 8, 16, 24, 32] := by decide
    refine ⟨hidx, ?_⟩
    simp only [reduceForecast, List.length_map, h40]
    rw [hsel, hidx]
    rfl

/-- Witness for C6: a concrete 40-point forecast selects indices
`[0, 8, 16, 24, 32]` and produces exactly 5 daily summaries. -/
theorem forecast_reducer_spec_witness :
    dashboardIndices (List.replicate 40 samplePoint).length = [0, 8, 16, 24, 32] ∧
    (reduceForecast (fun _ => "") (fun _ => "")
      (List.replicate 40 samplePoint)).daily_forecasts.length = 5 :=
  (forecast_reducer_spec (fun _ => "") (fun _ => "")
    (List.replicate 40 samplePoint)).2.2.2.2.2.2.2.2.2.2 (by simp)

/-- C1: for every climate label and city, and every outcome of the external
interaction (disabled/unconfigured environment, raised call, unparsable or
arbitrary parsed response), `generate_ai_analysis` returns a mapping whose
keys are exactly `irrigation_analysis`, `pest_analysis`, `field_analysis`,
`crop_analysis` in that order, each carrying a recommendation string and a
confidence.  The embedding is a total function: no exception ever reaches
the caller. -/
theorem generate_ai_analysis_total_four_keys (env : Env)
    (outcome : Except Unit (Option JValue)) (l c : String) :
    (generate_ai_analysis env outcome l c).map Prod.fst =
      ["irrigation_analysis", "pest_analysis", "field_analysis", "crop_analysis"] := by
  cases hd : externalDisabled env with
  | true => rw [generate_fallback env outcome l c hd]; exact mock_keys l c
  | false =>
    rw [generate_primary env outcome l c hd]
    cases outcome with
    | error e => exact mock_keys l c
    | ok od =>
      cases od with
      | none => exact mock_keys l c
      | some data =>
        cases hnf : normalizeFour data with
        | none => simp only [hnf, Option.getD_none]; exact mock_keys l c
        | some out =>
          obtain ⟨i, p, f, cc, _, _, _, _, hout⟩ := normalizeFour_some hnf
          simp only [hnf, Option.getD_some, hout]
          rfl

/-- Counterexample to C2: a successfully parsed response `{}` has all four
required top-level keys absent, yet the generator does not return the
fallback table — it accepts the response, defaulting every entry to an empty
recommendation with confidence 50. -/
theorem generate_missing_keys_not_fallback :
    generate_ai_analysis envConfigured (.ok (some (.obj []))) "sunny" "X" ≠
      _get_mock_recommendations "sunny" "X" ∧
    generate_ai_analysis envConfigured (.ok (some (.obj []))) "sunny" "X" =
      [("irrigation_analysis", ⟨"", 50⟩), ("pest_analysis", ⟨"", 50⟩),
       ("field_analysis", ⟨"", 50⟩), ("crop_analysis", ⟨"", 50⟩)] := by
  refine ⟨?_, rfl⟩
  decide

/-- C2 as amended: on the primary path, a parse failure or a raised call
returns the fallback; a value of a present (or defaulted) top-level key
that fails shape validation fails the whole response (no partial
acceptance); but an absent top-level key does not fail the response — like
a missing sub-key it is defaulted to an empty recommendation with
confidence 50. -/
theorem generate_failure_and_default_policy (env : Env) (l c : String)
    (hd : externalDisabled env = false) :
    (generate_ai_analysis env (.ok none) l c = _get_mock_recommendations l c) ∧
    (generate_ai_analysis env (.error ()) l c = _get_mock_recommendations l c) ∧
    (∀ data, normalizeFour data = none →
      generate_ai_analysis env (.ok (some data)) l c = _get_mock_recommendations l c) ∧
    (∀ data out, normalizeFour data = some out →
      generate_ai_analysis env (.ok (some data)) l c = out) ∧
    (∀ fields k,
      k ∈ (["irrigation_analysis", "pest_analysis", "field_analysis",
            "crop_analysis"] : List String) →
      alookup fields k = none →
      ∀ out, normalizeFour (.obj fields) = some out →
        List.lookup k out = some ⟨"", 50⟩) := by
  refine ⟨by rw [generate_primary env _ l c hd],
    by rw [generate_primary env _ l c hd],
    fun data hnf => ?_, fun data out hnf => ?_, fun fields k hk hnone out hout => ?_⟩
  · rw [generate_primary env _ l c hd]
    simp [hnf]
  · rw [generate_primary env _ l c hd]
    simp [hnf]
  · obtain ⟨i, p, f, cc, hi, hp, hf, hc, hout'⟩ := normalizeFour_some hout
    subst hout'
    have hdflt : ∀ key : String, alookup fields key = none →
        (jgetD (.obj fields) key (.obj [])).bind _normalize =
          some (⟨"", 50⟩ : Recommendation) := by
      intro key hkey
      have hkey' : List.lookup key fields = none := hkey
      simp [jgetD, alookup, hkey', _normalize]
    fin_cases hk
    · rw [hdflt _ hnone] at hi
      cases hi
      rfl
    · rw [hdflt _ hnone] at hp
      cases hp
      rfl
    · rw [hdflt _ hnone] at hf
      cases hf
      rfl
    · rw [hdflt _ hnone] at hc
      cases hc
      rfl

/-- Witness for C2 (amended): in a configured environment, a parse failure
falls back, and the all-keys-absent response `{}` normalizes to the four
defaulted entries, whose pest entry is the empty/50 default. -/
theorem generate_failure_and_default_policy_witness :
    generate_ai_analysis envConfigured (.ok none) "clear" "X" =
      _get_mock_recommendations "clear" "X" ∧
    List.lookup "pest_analysis"
      [("irrigation_analysis", (⟨"", 50⟩ : Recommendation)),
       ("pest_analysis", ⟨"", 50⟩), ("field_analysis", ⟨"", 50⟩),
       ("crop_analysis", ⟨"", 50⟩)] = some ⟨"", 50⟩ := by
  have h := generate_failure_and_default_policy envConfigured "clear" "X" (by decide)
  exact ⟨h.1, h.2.2.2.2 [] "pest_analysis" (by decide) rfl _ rfl⟩

/-- C5: in a configured environment, an invocation whose external response
is malformed (unparsable, or failing shape validation) returns exactly the
same complete result as any invocation in an unconfigured/disabled
environment — the deterministic fallback table entry for that climate
label; for the winter label the four confidence values are
95, 88, 95, 92 (the winter bucket), never a partial or empty result. -/
theorem malformed_equals_unconfigured (envC envU : Env)
    (outU : Except Unit (Option JValue)) (l c : String)
    (hC : externalDisabled envC = false) (hU : externalDisabled envU = true) :
    (generate_ai_analysis envC (.ok none) l c =
      generate_ai_analysis envU outU l c) ∧
    (generate_ai_analysis envC (.error ()) l c =
      generate_ai_analysis envU outU l c) ∧
    (∀ data, normalizeFour data = none →
      generate_ai_analysis envC (.ok (some data)) l c =
        generate_ai_analysis envU outU l c) ∧
    (generate_ai_analysis envU outU l c = _get_mock_recommendations l c) ∧
    ((generate_ai_analysis envU outU "winter" "Fargo").map
      (fun kv => kv.2.confidence) = [95, 88, 95, 92]) := by
  have hu : ∀ l' c' : String,
      generate_ai_analysis envU outU l' c' = _get_mock_recommendations l' c' :=
    fun l' c' => generate_fallback envU outU l' c' hU
  refine ⟨?_, ?_, fun data hnf => ?_, hu l c, ?_⟩
  · rw [generate_primary envC _ l c hC, hu l c]
  · rw [generate_primary envC _ l c hC, hu l c]
  · rw [generate_primary envC _ l c hC, hu l c]
    simp [hnf]
  · rw [hu "winter" "Fargo"]
    rfl

/-- Witness for C5 at concrete inputs: a configured environment receiving an
unparsable response, or a shape-invalid response (a bare string), agrees
with an unconfigured environment on ("winter", "Fargo"), and the winter
fallback confidences are 95, 88, 95, 92. -/
theorem malformed_equals_unconfigured_witness :
    generate_ai_analysis envConfigured (.ok none) "winter" "Fargo" =
      generate_ai_analysis envUnconfigured (.error ()) "winter" "Fargo" ∧
    generate_ai_analysis envConfigured (.ok (some (.str "oops"))) "winter" "Fargo" =
      generate_ai_analysis envUnconfigured (.error ()) "winter" "Fargo" ∧
    (generate_ai_analysis envUnconfigured (.error ()) "winter" "Fargo").map
      (fun kv => kv.2.confidence) = [95, 88, 95, 92] := by
  have h := malformed_equals_unconfigured envConfigured envUnconfigured
    (.error ()) "winter" "Fargo" (by decide) (by decide)
  exact ⟨h.1, h.2.2.1 (.str "oops") rfl, h.2.2.2.2⟩

/-- C10 (implicit hyperproperty): on the fallback path (environment
unconfigured/disabled, raised call, or unparsable response) the result of
`generate_ai_analysis` is independent of the city argument, and the
fallback table itself depends only on the substring-match profile of the
lowercased climate label. -/
theorem fallback_city_independent (env : Env)
    (outcome : Except Unit (Option JValue)) (l c1 c2 : String)
    (h : externalDisabled env = true ∨ outcome = .error () ∨ outcome = .ok none) :
    generate_ai_analysis env outcome l c1 = generate_ai_analysis env outcome l c2 ∧
    _get_mock_recommendations l c1 = _get_mock_recommendations l c2 ∧
    (∀ l1 l2 : String,
      (∀ pat ∈ (["rain", "drizzle", "thunderstorm", "winter", "snow", "cold",
                 "sunny", "clear"] : List String),
        strIn pat (pyLower l1) = strIn pat (pyLower l2)) →
      _get_mock_recommendations l1 c1 = _get_mock_recommendations l2 c2) := by
  have hmock : ∀ l' : String,
      _get_mock_recommendations l' c1 = _get_mock_recommendations l' c2 :=
    fun l' => rfl
  refine ⟨?_, hmock l, fun l1 l2 hpat => ?_⟩
  · rcases h with hd | ho | ho
    · rw [generate_fallback env outcome l c1 hd,
        generate_fallback env outcome l c2 hd]
      exact hmock l
    · subst ho
      cases hd : externalDisabled env with
      | true =>
        rw [generate_fallback env _ l c1 hd, generate_fallback env _ l c2 hd]
        exact hmock l
      | false =>
        rw [generate_primary env _ l c1 hd, generate_primary env _ l c2 hd]
        exact hmock l
    · subst ho
      cases hd : externalDisabled env with
      | true =>
        rw [generate_fallback env _ l c1 hd, generate_fallback env _ l c2 hd]
        exact hmock l
      | false =>
        rw [generate_primary env _ l c1 hd, generate_primary env _ l c2 hd]
        exact hmock l
  · have h1 := hpat "rain" (by simp)
    have h2 := hpat "drizzle" (by simp)
    have h3 := hpat "thunderstorm" (by simp)
    have h4 := hpat "winter" (by simp)
    have h5 := hpat "snow" (by simp)
    have h6 := hpat "cold" (by simp)
    have h7 := hpat "sunny" (by simp)
    have h8 := hpat "clear" (by simp)
    simp only [_get_mock_recommendations]
    rw [h1, h2, h3, h4, h5, h6, h7, h8]

/-- Witness for C10: an unconfigured invocation yields the same result for
Paris and Berlin, and two climate labels with the same substring-match
profile ("Sunny" vs "sunny") index the same fallback bucket for different
cities. -/
theorem fallback_city_independent_witness :
    generate_ai_analysis envUnconfigured (.ok none) "sunny" "Paris" =
      generate_ai_analysis envUnconfigured (.ok none) "sunny" "Berlin" ∧
    _get_mock_recommendations "Sunny" "Paris" =
      _get_mock_recommendations "sunny" "Berlin" := by
  have h := fallback_city_independent envUnconfigured (.ok none) "sunny"
    "Paris" "Berlin" (Or.inl (by decide))
  exact ⟨h.1, h.2.2 "Sunny" "sunny" (by decide)⟩

end WeatherApp
